import Mathlib

/-!
Verification development for the METAR-TAF repository: a shallow embedding of
the TAF decoder (taf_decoder.py), the NOTAM field extractor (collect_notam.py)
and the NOTAM decoder (notam_decoder.py), together with theorems settling the
frozen claims about them.

All of the repository's parsing is driven by the Python re module, so the
embedding starts with a small backtracking matcher over List Char covering
exactly the constructs appearing in the source patterns: single-character
classes, ordered alternation, greedy and lazy counted repetition of a class,
capture groups, lookahead, the anchors caret and dollar, and word boundaries.
The matcher enumerates results in Python backtracking order (alternatives
left to right, greedy repetitions longest first), so taking the head of the
result list at the leftmost matching position reproduces re.search.
-/

namespace Spec2Proof

namespace Re

/-- Python re whitespace (ASCII part, the only characters that occur here). -/
def isPySpace (c : Char) : Bool :=
  c == ' ' || c == '\t' || c == '\n' || c == '\r' || c == '\x0b' || c == '\x0c'

/-- Python re word character.  Beyond ASCII the inputs and tables of this
repository only contain Cyrillic letters, which are word characters, so the
Unicode word class is restricted to the Cyrillic block. -/
def isWordChar (c : Char) : Bool :=
  c.isAlpha || c.isDigit || c == '_' || (0x400 ≤ c.toNat && c.toNat ≤ 0x4FF)

/-- Pattern AST: the constructs used by the source regexes. -/
inductive Rx where
  | eps
  | cls (p : Char → Bool)
  | seq (a b : Rx)
  | alt (a b : Rx)
  | rep (p : Char → Bool) (lo : Nat) (hi : Option Nat) (isLazy : Bool)
  | grp (n : Nat) (r : Rx)
  | look (r : Rx)
  | bol
  | eol
  | wordB

/-- Captured groups of a match attempt, most recent first. -/
abbrev Caps := List (Nat × List Char)

/-- Does a word character stand at index i. -/
def wordAt (full : List Char) (i : Nat) : Bool :=
  match full.get? i with
  | some c => isWordChar c
  | none => false

/-- Python word boundary at index i. -/
def boundaryAt (full : List Char) (i : Nat) : Bool :=
  if i = 0 then wordAt full 0
  else wordAt full (i - 1) != wordAt full i

/-- Length of the maximal run of characters satisfying p starting at i. -/
def runLenFrom (p : Char → Bool) (full : List Char) (i : Nat) : Nat :=
  ((full.drop i).takeWhile p).length

/-- Candidate repetition counts in backtracking preference order:
longest first when greedy, shortest first when lazy. -/
def repCounts (lo : Nat) (hi : Option Nat) (isLazy : Bool) (maxr : Nat) : List Nat :=
  let m := match hi with
    | some h => min h maxr
    | none => maxr
  if lo ≤ m then
    if isLazy then (List.range (m - lo + 1)).map (fun k => lo + k)
    else (List.range (m - lo + 1)).map (fun k => m - k)
  else []

/-- All ways to match r at index i of full, as (end index, captures) in
Python backtracking preference order. -/
def mrun (full : List Char) : Rx → Nat → Caps → List (Nat × Caps)
  | .eps, i, caps => [(i, caps)]
  | .cls p, i, caps =>
    match full.get? i with
    | some c => if p c then [(i + 1, caps)] else []
    | none => []
  | .seq a b, i, caps =>
    ((mrun full a i caps).map (fun r => mrun full b r.1 r.2)).flatten
  | .alt a b, i, caps => mrun full a i caps ++ mrun full b i caps
  | .rep p lo hi lz, i, caps =>
    (repCounts lo hi lz (runLenFrom p full i)).map (fun k => (i + k, caps))
  | .grp n r, i, caps =>
    (mrun full r i caps).map (fun res => (res.1, (n, (full.drop i).take (res.1 - i)) :: res.2))
  | .look r, i, caps => if (mrun full r i caps).isEmpty then [] else [(i, caps)]
  | .bol, i, caps => if i = 0 then [(i, caps)] else []
  | .eol, i, caps => if i = full.length then [(i, caps)] else []
  | .wordB, i, caps => if boundaryAt full i then [(i, caps)] else []

/-- One match: span and captures. -/
structure MRes where
  mstart : Nat
  mend : Nat
  caps : Caps
deriving DecidableEq

/-- The captured text of group n, if the group participated in the match. -/
def capGet (m : MRes) (n : Nat) : Option (List Char) :=
  (m.caps.find? (fun p => p.1 == n)).map (fun p => p.2)

def searchFromAux (full : List Char) (r : Rx) : Nat → Nat → Option MRes
  | 0, _ => none
  | fuel + 1, i =>
    match mrun full r i [] with
    | res :: _ => some ⟨i, res.1, res.2⟩
    | [] => if i < full.length then searchFromAux full r fuel (i + 1) else none

/-- re.search starting at index i: leftmost match, first in preference order. -/
def searchFrom (full : List Char) (r : Rx) (i : Nat) : Option MRes :=
  searchFromAux full r (full.length + 1 - i) i

/-- re.search on the whole input. -/
def search (full : List Char) (r : Rx) : Option MRes :=
  searchFrom full r 0

def finditerAux (full : List Char) (r : Rx) : Nat → Nat → List MRes
  | 0, _ => []
  | fuel + 1, i =>
    match searchFrom full r i with
    | none => []
    | some m =>
      m :: finditerAux full r fuel (if m.mend = m.mstart then m.mend + 1 else m.mend)

/-- re.finditer: successive non-overlapping leftmost matches. -/
def finditer (full : List Char) (r : Rx) : List MRes :=
  finditerAux full r (full.length + 2) 0

/-- Reassemble the input with each match span replaced by repl, given the
match list and the index where the unprocessed tail begins. -/
def spliceSubs (full : List Char) (repl : List Char) : List MRes → Nat → List Char
  | [], pos => full.drop pos
  | m :: rest, pos =>
    (full.drop pos).take (m.mstart - pos) ++ repl ++ spliceSubs full repl rest m.mend

/-- re.sub with a plain replacement string (no backreferences occur here). -/
def subAll (full : List Char) (r : Rx) (repl : List Char) : List Char :=
  spliceSubs full repl (finditer full r) 0

/-- Interleave the pieces between matches with the text of capture group 1,
given the match list and the index where the unprocessed tail begins. -/
def splitPieces (full : List Char) : List MRes → Nat → List (List Char)
  | [], pos => [full.drop pos]
  | m :: rest, pos =>
    (full.drop pos).take (m.mstart - pos) :: ((capGet m 1).getD [])
      :: splitPieces full rest m.mend

/-- re.split for a pattern with exactly one capture group that always
participates: pieces of text alternating with the captured delimiters. -/
def splitCap (full : List Char) (r : Rx) : List (List Char) :=
  splitPieces full (finditer full r) 0

-- Pattern building blocks, mirroring the written form of the source regexes.

/-- A single literal character. -/
def rch (c : Char) : Rx := .cls (fun d => d == c)

def rseqList : List Rx → Rx
  | [] => .eps
  | r :: rest => .seq r (rseqList rest)

/-- A literal string. -/
def rlit (s : String) : Rx := rseqList (s.data.map rch)

/-- A literal string matched case-insensitively (re.IGNORECASE). -/
def rlitCI (s : String) : Rx := rseqList (s.data.map (fun c => Rx.cls (fun d => d.toLower == c.toLower)))

/-- Ordered alternation of a nonempty list of branches. -/
def raltList : List Rx → Rx
  | [] => .eps
  | [r] => r
  | r :: rest => .alt r (raltList rest)

/-- A question mark on a sub-pattern: greedy, so try the present branch first. -/
def ropt (r : Rx) : Rx := .alt r .eps

/-- The class backslash-d. -/
def rdigit : Char → Bool := fun c => c.isDigit

/-- The class backslash-s. -/
def rspace : Char → Bool := isPySpace

/-- The class A-Z. -/
def rupper : Char → Bool := fun c => decide ('A' ≤ c) && decide (c ≤ 'Z')

/-- The DOTALL dot. -/
def rany : Char → Bool := fun _ => true

/-- The class excluding the newline. -/
def rnotNl : Char → Bool := fun c => c != '\n'

end Re

-- Python string helpers shared by the decoders.

namespace Py

open Re

/-- Membership of sub as a contiguous substring (the Python in operator). -/
def containsSub (full sub : List Char) : Bool :=
  match full with
  | [] => sub.isEmpty
  | _ :: rest => sub.isPrefixOf full || containsSub rest sub

/-- str.startswith. -/
def beginsWith (full sub : List Char) : Bool :=
  sub.isPrefixOf full

/-- str.strip with no argument: remove leading and trailing whitespace. -/
def pyStrip (l : List Char) : List Char :=
  ((l.dropWhile isPySpace).reverse.dropWhile isPySpace).reverse

def pyWordsAux : Nat → List Char → List (List Char)
  | 0, _ => []
  | _ + 1, [] => []
  | f + 1, c :: rest =>
    if isPySpace c then pyWordsAux f rest
    else (c :: rest.takeWhile (fun d => !isPySpace d))
      :: pyWordsAux f (rest.dropWhile (fun d => !isPySpace d))

/-- str.split with no argument: whitespace-run separated words.  The fuel
argument of the helper only bounds the recursion depth; the length of the
remaining text always suffices. -/
def pyWords (l : List Char) : List (List Char) := pyWordsAux l.length l

/-- str.join with a one-character separator. -/
def joinWith (sep : List Char) : List (List Char) → List Char
  | [] => []
  | [w] => w
  | w :: rest => w ++ sep ++ joinWith sep rest

/-- Numeric value of a digit character. -/
def dVal (c : Char) : Nat := c.toNat - 48

/-- Value of a string of decimal digits (int on a regex capture made of
digits, which cannot fail). -/
def natOfDigits (l : List Char) : Nat :=
  l.foldl (fun acc c => acc * 10 + dVal c) 0

/-- int applied to an arbitrary slice: succeeds exactly on nonempty all-digit
strings (the slices fed to int here are never signed or padded). -/
def natOfDigitsQ (l : List Char) : Option Nat :=
  if l.isEmpty then none
  else if l.all Char.isDigit then some (natOfDigits l) else none

/-- Decimal digit character. -/
def dChar (k : Nat) : Char := Char.ofNat (48 + k)

def natStrAux : Nat → Nat → List Char
  | 0, _ => []
  | f + 1, n => if n < 10 then [dChar n] else natStrAux f (n / 10) ++ [dChar (n % 10)]

/-- Decimal rendering of a natural number (str interpolation of an int). -/
def natStr (n : Nat) : List Char := natStrAux (n + 1) n

/-- Two-digit zero-padded rendering. -/
def pad2 (n : Nat) : List Char := [dChar (n / 10 % 10), dChar (n % 10)]

/-- Four-digit zero-padded rendering. -/
def pad4 (n : Nat) : List Char :=
  [dChar (n / 1000 % 10), dChar (n / 100 % 10), dChar (n / 10 % 10), dChar (n % 10)]

/-- Lookup in a Python dict literal given as its ordered bindings: a later
binding for the same key overwrites an earlier one. -/
def dictGet (tbl : List (String × String)) (k : String) : Option String :=
  (tbl.reverse.find? (fun p => p.1 == k)).map (fun p => p.2)

end Py

/-!
Embedding of taf_decoder.py.  Functions keep the source names with the
leading underscore dropped.  Text is handled as List Char internally and
stored as String in the record fields.
-/

namespace TAFDecoder

open Re Py

-- The lexical tables (СПРАВОЧНИКИ) of taf_decoder.py.

def CLOUD_COVER : List (String × String) := [
  ("SKC", "ясно"),
  ("CLR", "ясно"),
  ("NSC", "нет значимой облачности"),
  ("NCD", "нет облаков (автоматическая станция)"),
  ("FEW", "малооблачно (1-2 окты)"),
  ("SCT", "рассеянная облачность (3-4 окты)"),
  ("BKN", "значительная облачность (5-7 окт)"),
  ("OVC", "сплошная облачность (8 окт)"),
  ("VV", "вертикальная видимость")]

def CLOUD_TYPES : List (String × String) := [
  ("CB", "кучево-дождевые (грозовые)"),
  ("TCU", "мощно-кучевые"),
  ("CI", "перистые"),
  ("CC", "перисто-кучевые"),
  ("CS", "перисто-слоистые"),
  ("AC", "высоко-кучевые"),
  ("AS", "высоко-слоистые"),
  ("NS", "слоисто-дождевые"),
  ("SC", "слоисто-кучевые"),
  ("ST", "слоистые"),
  ("CU", "кучевые")]

def WEATHER_PHENOMENA : List (String × String) := [
  ("-", "слабая"),
  ("+", "сильная"),
  ("VC", "в окрестности"),
  ("MI", "низкая"),
  ("BC", "клочковатая"),
  ("PR", "частичная"),
  ("DR", "низовая"),
  ("BL", "поземок"),
  ("SH", "ливневая"),
  ("TS", "гроза"),
  ("FZ", "переохлажденная"),
  ("DZ", "морось"),
  ("RA", "дождь"),
  ("SN", "снег"),
  ("SG", "снежные зёрна"),
  ("IC", "ледяные кристаллы"),
  ("PL", "ледяная крупа"),
  ("GR", "град"),
  ("GS", "мелкий град"),
  ("UP", "неопределённые осадки"),
  ("BR", "дымка"),
  ("FG", "туман"),
  ("FU", "дым"),
  ("VA", "вулканический пепел"),
  ("DU", "пыль"),
  ("SA", "песок"),
  ("HZ", "мгла"),
  ("PY", "водяные брызги"),
  ("PO", "пыльные вихри"),
  ("SQ", "шквал"),
  ("FC", "воронкообразное облако/торнадо"),
  ("SS", "песчаная буря"),
  ("DS", "пыльная буря")]

-- Decoded record shapes: one structure per dict shape built by the source,
-- with Option for keys that a branch may leave out.

structure Wind where
  speed : Nat
  direction : Option (String ⊕ Nat)
  direction_text : Option String
  gusts : Option Nat
  text : String
deriving DecidableEq

structure Visibility where
  meters : Nat
  quality : Option String
  text : String
deriving DecidableEq

structure WxItem where
  code : String
  text : String
deriving DecidableEq

structure Cloud where
  cover : String
  cover_text : String
  height_ft : Nat
  height_m : Nat
  type : Option String
  text : String
deriving DecidableEq

structure Temperature where
  type : String
  value : Int
  text : String
deriving DecidableEq

structure IssueTime where
  day : Nat
  hour : Nat
  minute : Nat
  text : String
deriving DecidableEq

structure ValidPeriod where
  from_day : Nat
  from_hour : Nat
  to_day : Nat
  to_hour : Nat
  text : String
deriving DecidableEq

structure Change where
  indicator : String
  indicator_text : String
  wind : Option Wind
  visibility : Option Visibility
  weather : List WxItem
  clouds : List Cloud
deriving DecidableEq

structure Decoded where
  raw : String
  station : Option String
  issue_time : Option IssueTime
  valid_period : Option ValidPeriod
  wind : Option Wind
  visibility : Option Visibility
  weather : List WxItem
  clouds : List Cloud
  temperature : Option Temperature
  changes : List Change
  error : Option String
deriving DecidableEq

-- The source regexes, transcribed pattern by pattern.

/-- A digit class with a restricted first bound, for example [0-3]. -/
def rrange (lo hi : Char) : Char → Bool := fun c => decide (lo ≤ c) && decide (c ≤ hi)

/-- TAF backslash-s+ (?:AMD backslash-s+|COR backslash-s+)? ([A-Z]{4}) -/
def stationRx : Rx := rseqList [rlit "TAF", .rep rspace 1 none false,
  ropt (.alt (.seq (rlit "AMD") (.rep rspace 1 none false))
             (.seq (rlit "COR") (.rep rspace 1 none false))),
  .grp 1 (.rep rupper 4 (some 4) false)]

/-- ([0-3]d)([0-2]d)([0-5]d)Z -/
def issueRx : Rx := rseqList [
  .grp 1 (.seq (.cls (rrange '0' '3')) (.cls rdigit)),
  .grp 2 (.seq (.cls (rrange '0' '2')) (.cls rdigit)),
  .grp 3 (.seq (.cls (rrange '0' '5')) (.cls rdigit)),
  rch 'Z']

/-- ([0-3]d)([0-2]d)/([0-3]d)([0-2]d) -/
def validRx : Rx := rseqList [
  .grp 1 (.seq (.cls (rrange '0' '3')) (.cls rdigit)),
  .grp 2 (.seq (.cls (rrange '0' '2')) (.cls rdigit)),
  rch '/',
  .grp 3 (.seq (.cls (rrange '0' '3')) (.cls rdigit)),
  .grp 4 (.seq (.cls (rrange '0' '2')) (.cls rdigit))]

/-- backslash-s+(FM|TEMPO|BECMG|PROB), the split locating the baseline. -/
def mainSplitRx : Rx := .seq (.rep rspace 1 none false)
  (.grp 1 (raltList [rlit "FM", rlit "TEMPO", rlit "BECMG", rlit "PROB"]))

/-- VRB(d{2,3})(G(d{2,3}))?(KT|MPS) -/
def vrbRx : Rx := rseqList [rlit "VRB",
  .grp 1 (.rep rdigit 2 (some 3) false),
  ropt (.grp 2 (.seq (rch 'G') (.grp 3 (.rep rdigit 2 (some 3) false)))),
  .grp 4 (.alt (rlit "KT") (rlit "MPS"))]

/-- (d{3})(d{2,3})(G(d{2,3}))?(KT|MPS) -/
def windRx : Rx := rseqList [
  .grp 1 (.rep rdigit 3 (some 3) false),
  .grp 2 (.rep rdigit 2 (some 3) false),
  ropt (.grp 3 (.seq (rch 'G') (.grp 4 (.rep rdigit 2 (some 3) false)))),
  .grp 5 (.alt (rlit "KT") (rlit "MPS"))]

/-- backslash-s(d{4})backslash-s -/
def visRx : Rx := rseqList [.cls rspace, .grp 1 (.rep rdigit 4 (some 4) false), .cls rspace]

/-- (?:^|s)([-+]|VC)?([A-Z]{2,6})(?=s|$) -/
def weatherRx : Rx := rseqList [
  .alt .bol (.cls rspace),
  ropt (.grp 1 (.alt (.cls (fun c => c == '-' || c == '+')) (rlit "VC"))),
  .grp 2 (.rep rupper 2 (some 6) false),
  .look (.alt (.cls rspace) .eol)]

/-- (FEW|SCT|BKN|OVC|VV)(d{3})(CB|TCU)? -/
def cloudsRx : Rx := rseqList [
  .grp 1 (raltList [rlit "FEW", rlit "SCT", rlit "BKN", rlit "OVC", rlit "VV"]),
  .grp 2 (.rep rdigit 3 (some 3) false),
  ropt (.grp 3 (.alt (rlit "CB") (rlit "TCU")))]

/-- T([XN])M?(d{2})/(d{4})Z -/
def tempRx : Rx := rseqList [rch 'T',
  .grp 1 (.cls (fun c => c == 'X' || c == 'N')),
  ropt (rch 'M'),
  .grp 2 (.rep rdigit 2 (some 2) false),
  rch '/',
  .grp 3 (.rep rdigit 4 (some 4) false),
  rch 'Z']

/-- backslash-s+(FMd{6}|TEMPO|BECMG|PROBd{2}backslash-s+TEMPO|PROBd{2}) -/
def changesRx : Rx := .seq (.rep rspace 1 none false) (.grp 1 (raltList [
  .seq (rlit "FM") (.rep rdigit 6 (some 6) false),
  rlit "TEMPO",
  rlit "BECMG",
  rseqList [rlit "PROB", .rep rdigit 2 (some 2) false, .rep rspace 1 none false, rlit "TEMPO"],
  .seq (rlit "PROB") (.rep rdigit 2 (some 2) false)]))

/-- int(speed * 0.514): the double product n * 0.514 truncated by int agrees
with the exact n * 514 / 1000 for every n representable by the d{2,3}
captures (checked exhaustively for 0 <= n <= 999). -/
def ktToMps (n : Nat) : Nat := n * 514 / 1000

/-- int((direction + 22.5) / 45) % 8: the quotient never sits on an integer
boundary (2d + 45 is odd), so the double computation agrees with the exact
(d * 10 + 225) / 450 for every 3-digit direction. -/
def dirIdx (d : Nat) : Nat := (d * 10 + 225) / 450 % 8

def directions : List String := ["С", "СВ", "В", "ЮВ", "Ю", "ЮЗ", "З", "СЗ"]

/-- Decimal rendering as a String. -/
def natS (n : Nat) : String := String.mk (natStr n)

/-- Truthiness of the Python optional-int gusts value: None and 0 are falsy. -/
def gustsTruthy : Option Nat → Bool
  | some g => g != 0
  | none => false

/-- _parse_wind -/
def parse_wind (text : List Char) : Option Wind :=
  if containsSub text "00000KT".data || containsSub text "00000MPS".data then
    some { speed := 0, direction := none, direction_text := none, gusts := none,
           text := "🌬️ штиль" }
  else match Re.search text vrbRx with
  | some m =>
    let speed := natOfDigits ((capGet m 1).getD [])
    let gusts : Option Nat := (capGet m 3).map natOfDigits
    let unit := String.mk ((capGet m 4).getD [])
    let speed_mps := if unit == "KT" then ktToMps speed else speed
    let gusts_mps : Option Nat :=
      if unit == "KT" then (if gustsTruthy gusts then gusts.map ktToMps else none)
      else gusts
    let gust_text := if gustsTruthy gusts then
        ", порывы до " ++ natS (gusts_mps.getD 0) ++ " м/с" else ""
    some { speed := speed_mps, direction := some (Sum.inl "переменное"),
           direction_text := none, gusts := gusts_mps,
           text := "🌬️ ветер переменного направления " ++ natS speed_mps ++ " м/с" ++ gust_text }
  | none => match Re.search text windRx with
    | some m =>
      let direction := natOfDigits ((capGet m 1).getD [])
      let speed := natOfDigits ((capGet m 2).getD [])
      let gusts : Option Nat := (capGet m 4).map natOfDigits
      let unit := String.mk ((capGet m 5).getD [])
      let speed_mps := if unit == "KT" then ktToMps speed else speed
      let gusts_mps : Option Nat :=
        if unit == "KT" then (if gustsTruthy gusts then gusts.map ktToMps else none)
        else gusts
      let dir_text := (directions.getD (dirIdx direction) "")
      let gust_text := if gustsTruthy gusts then
          ", порывы до " ++ natS (gusts_mps.getD 0) ++ " м/с" else ""
      some { speed := speed_mps, direction := some (Sum.inr direction),
             direction_text := some dir_text, gusts := gusts_mps,
             text := "🌬️ ветер " ++ dir_text ++ " (" ++ natS direction ++ "°) "
               ++ natS speed_mps ++ " м/с" ++ gust_text }
    | none => none

/-- The if chain assigning quality from meters in _parse_visibility. -/
def visQuality (meters : Nat) : String :=
  if meters ≥ 5000 then "хорошая"
  else if meters ≥ 3000 then "средняя"
  else if meters ≥ 1000 then "ограниченная"
  else "плохая"

/-- The km figure of the visibility text, f-string {meters/1000:.1f}.  The
exact value has up to three decimals; this renders its one-decimal
truncation, while Python rounds the nearest double.  The two can differ only
in that last displayed decimal of this display-only string, which no field
and no claim depends on. -/
def kmStr (m : Nat) : String := natS (m / 1000) ++ "." ++ String.mk [dChar (m % 1000 / 100)]

/-- _parse_visibility -/
def parse_visibility (text : List Char) : Option Visibility :=
  if containsSub text "CAVOK".data then
    some { meters := 10000, quality := none,
           text := "👁️ видимость более 10 км, без облачности ниже 1500м, без грозовых явлений (CAVOK)" }
  else if containsSub text "9999".data then
    some { meters := 10000, quality := none, text := "👁️ видимость 10 км и более" }
  else match Re.search text visRx with
  | some m =>
    let meters := natOfDigits ((capGet m 1).getD [])
    let quality := visQuality meters
    let vtext := if meters ≥ 1000 then
        "👁️ видимость " ++ kmStr meters ++ " км (" ++ quality ++ ")"
      else "👁️ видимость " ++ natS meters ++ " м (" ++ quality ++ ")"
    some { meters := meters, quality := some quality, text := vtext }
  | none => none

/-- _get_weather_emoji -/
def get_weather_emoji (code : List Char) : String :=
  if containsSub code "TS".data then "⛈️"
  else if containsSub code "RA".data then "🌧️"
  else if containsSub code "SN".data then "❄️"
  else if containsSub code "FG".data then "🌫️"
  else if containsSub code "BR".data then "🌫️"
  else if containsSub code "SH".data then "🌦️"
  else if containsSub code "GR".data || containsSub code "GS".data then "🌨️"
  else "☁️"

/-- The two-characters-at-a-time loop of _decode_weather_code: the window at
index i is looked up in the table; a hit advances past the window, a miss
advances one position.  The fuel only bounds the iteration count. -/
def weatherParts : Nat → List Char → Nat → List String
  | 0, _, _ => []
  | f + 1, code, i =>
    if i < code.length then
      match dictGet WEATHER_PHENOMENA (String.mk ((code.drop i).take 2)) with
      | some t => t :: weatherParts f code (i + 2)
      | none => weatherParts f code (i + 1)
    else []

/-- _decode_weather_code -/
def decode_weather_code (code : List Char) : Option String :=
  let stripped :=
    if beginsWith code "-".data then (["слабый"], code.drop 1)
    else if beginsWith code "+".data then (["сильный"], code.drop 1)
    else if beginsWith code "VC".data then (["в окрестности"], code.drop 2)
    else ([], code)
  let parts := stripped.1 ++ weatherParts stripped.2.length stripped.2 0
  if parts.isEmpty then none
  else some (get_weather_emoji stripped.2 ++ " " ++ String.intercalate " " parts)

/-- _parse_weather -/
def parse_weather (text : List Char) : List WxItem :=
  (Re.finditer text weatherRx).filterMap (fun m =>
    let intensity := (capGet m 1).getD []
    let code := (capGet m 2).getD []
    if (["CAVOK", "NSC", "SKC", "CLR", "NCD"].map String.data).contains code then none
    else if ["FEW", "SCT", "BKN", "OVC", "VV"].any
        (fun p => beginsWith code (String.data p)) then none
    else match decode_weather_code (intensity ++ code) with
      | some d => some { code := String.mk (intensity ++ code), text := d }
      | none => none)

/-- _parse_clouds.  int(height_ft * 0.3048) agrees with the exact
height_ft * 3048 / 10000 for every 3-digit height code (checked
exhaustively for 0 <= code <= 999). -/
def parse_clouds (text : List Char) : List Cloud :=
  (Re.finditer text cloudsRx).map (fun m =>
    let cover := String.mk ((capGet m 1).getD [])
    let ctype := (capGet m 3).map String.mk
    let height_ft := natOfDigits ((capGet m 2).getD []) * 100
    let height_m := height_ft * 3048 / 10000
    let cover_text := (dictGet CLOUD_COVER cover).getD cover
    let type_text := match ctype with
      | some t => ", " ++ ((dictGet CLOUD_TYPES t).getD t)
      | none => ""
    { cover := cover, cover_text := cover_text, height_ft := height_ft,
      height_m := height_m, type := ctype,
      text := "☁️ " ++ cover_text ++ " на высоте " ++ natS height_m ++ "м ("
        ++ natS height_ft ++ "фт)" ++ type_text })

/-- Signed rendering of an int, f-string {temp:+d}. -/
def signS (i : Int) : String :=
  if i < 0 then "-" ++ natS i.natAbs else "+" ++ natS i.natAbs

/-- _parse_temperature -/
def parse_temperature (text : List Char) : Option Temperature :=
  (Re.search text tempRx).map (fun m =>
    let temp_type := if (capGet m 1).getD [] == ['X'] then "максимальная" else "минимальная"
    let tval : Int := natOfDigits ((capGet m 2).getD [])
    let temp : Int := if containsSub text "M".data then -tval else tval
    { type := temp_type, value := temp,
      text := "🌡️ " ++ temp_type ++ " температура " ++ signS temp ++ "°C" })

/-- The station extraction of _parse_header. -/
def parse_station (taf : List Char) : Option String :=
  (Re.search taf stationRx).bind (fun m => (capGet m 1).map String.mk)

/-- Two-digit zero-padded rendering as a String, f-string {n:02d}. -/
def pad2S (n : Nat) : String := String.mk (pad2 n)

/-- The issue-time extraction of _parse_header. -/
def parse_issue (taf : List Char) : Option IssueTime :=
  (Re.search taf issueRx).map (fun m =>
    let day := natOfDigits ((capGet m 1).getD [])
    let hour := natOfDigits ((capGet m 2).getD [])
    let minute := natOfDigits ((capGet m 3).getD [])
    { day := day, hour := hour, minute := minute,
      text := pad2S day ++ " число, " ++ pad2S hour ++ ":" ++ pad2S minute ++ " UTC" })

/-- The validity-window extraction of _parse_header. -/
def parse_valid (taf : List Char) : Option ValidPeriod :=
  (Re.search taf validRx).map (fun m =>
    let from_day := natOfDigits ((capGet m 1).getD [])
    let from_hour := natOfDigits ((capGet m 2).getD [])
    let to_day := natOfDigits ((capGet m 3).getD [])
    let to_hour := natOfDigits ((capGet m 4).getD [])
    { from_day := from_day, from_hour := from_hour, to_day := to_day, to_hour := to_hour,
      text := "с " ++ pad2S from_day ++ " числа " ++ pad2S from_hour ++ ":00 до "
        ++ pad2S to_day ++ " числа " ++ pad2S to_hour ++ ":00 UTC" })

/-- re.split(..., taf)[0] in _parse_main_forecast: the text before the first
change indicator, or the whole text when there is none. -/
def main_part (taf : List Char) : List Char :=
  match Re.search taf mainSplitRx with
  | none => taf
  | some m => taf.take m.mstart

/-- _decode_change_indicator -/
def decode_change_indicator (ind : List Char) : String :=
  if beginsWith ind "FM".data then
    let time := ind.drop 2
    "С " ++ String.mk (time.take 2) ++ " числа " ++ String.mk ((time.drop 2).take 2)
      ++ ":" ++ String.mk ((time.drop 4).take 2) ++ " UTC"
  else if beginsWith ind "PROB".data then
    "Вероятность " ++ String.mk ((ind.drop 4).take 2) ++ "%"
  else if ind = "TEMPO".data then "Временами"
  else if ind = "BECMG".data then "Постепенное изменение"
  else String.mk ind

/-- The loop of _parse_changes walks the split result pairwise from index 1:
each (indicator, following text) pair, dropping a trailing indicator with no
following piece. -/
def pairUp : List (List Char) → List (List Char × List Char)
  | g :: b :: rest => (g, b) :: pairUp rest
  | _ => []

/-- _parse_changes -/
def parse_changes (taf : List Char) : List Change :=
  (pairUp ((Re.splitCap taf changesRx).drop 1)).map (fun pr =>
    let ind := pyStrip pr.1
    let content := pyStrip pr.2
    { indicator := String.mk ind, indicator_text := decode_change_indicator ind,
      wind := parse_wind content, visibility := parse_visibility content,
      weather := parse_weather content, clouds := parse_clouds content })

/-- TAFDecoder.decode.  The try block can set the error key only when a
sub-parser raises; every operation there is total on str input, so the key
stays absent.  (Non-str input fails on the strip call before the try block
and before any record exists, outside this typed embedding.)  The
human-readable rendering only assembles the fields below and is out of
scope, as presentation. -/
def decode (taf_text : String) : Decoded :=
  let raw := pyStrip taf_text.data
  let taf := joinWith [' '] (pyWords raw)
  let main := main_part taf
  { raw := String.mk raw,
    station := parse_station taf,
    issue_time := parse_issue taf,
    valid_period := parse_valid taf,
    wind := parse_wind main,
    visibility := parse_visibility main,
    weather := parse_weather main,
    clouds := parse_clouds main,
    temperature := parse_temperature main,
    changes := parse_changes taf,
    error := none }

end TAFDecoder

/-!
Embedding of the NOTAM field extraction of collect_notam.py
(NOTAMCollector._parse_raw_notam and _parse_notam_datetime).
-/

namespace NOTAMCollector

open Re Py

structure QData where
  fir : String
  code : String
  traffic : String
  purpose : String
  scope : String
  lower : String
  upper : String
  coordinates : String
  radius : Option String
deriving DecidableEq

structure Notam where
  id : String
  type : String
  q_code : Option String
  location : Option String
  valid_from : Option String
  valid_to : Option String
  is_permanent : Bool
  schedule : Option String
  description_raw : Option String
  lower_limit : Option String
  upper_limit : Option String
  q_data : Option QData
  raw : String
deriving DecidableEq

/-- Gregorian leap year, as the datetime constructor validates it. -/
def isLeap (y : Nat) : Bool := y % 4 == 0 && (y % 100 != 0 || y % 400 == 0)

def daysInMonth (y m : Nat) : Nat :=
  if m = 2 then (if isLeap y then 29 else 28)
  else if m = 4 || m = 6 || m = 9 || m = 11 then 30
  else 31

/-- The range validation performed by the datetime constructor (its year
range is MINYEAR 1 to MAXYEAR 9999). -/
def dtValid (y m d h mi : Nat) : Bool :=
  decide (1 ≤ y) && decide (y ≤ 9999) && decide (1 ≤ m) && decide (m ≤ 12)
    && decide (1 ≤ d) && decide (d ≤ daysInMonth y m) && decide (h ≤ 23) && decide (mi ≤ 59)

/-- datetime(y, m, d, h, mi).isoformat() + Z. -/
def isoOf (y m d h mi : Nat) : String :=
  String.mk (pad4 y) ++ "-" ++ String.mk (pad2 m) ++ "-" ++ String.mk (pad2 d)
    ++ "T" ++ String.mk (pad2 h) ++ ":" ++ String.mk (pad2 mi) ++ ":00Z"

/-- Construct the ISO string when the constructor accepts the fields; an
out-of-range field raises, which the surrounding except absorbs to None. -/
def mkDt (y m d h mi : Nat) : Option String :=
  if dtValid y m d h mi then some (isoOf y m d h mi) else none

/-- _parse_notam_datetime, parameterised by the wall-clock year that
datetime.now() reads.  A 10-digit value is YYMMDDHHmm with the century
resolved against currentYear % 100 + 5; a 12-digit value is YYYYMMDDHHmm;
any other length, a non-digit slice or an out-of-range field gives None. -/
def parse_notam_datetime (currentYear : Nat) (dt : List Char) : Option String :=
  if dt.length = 10 then
    match natOfDigitsQ (dt.take 2), natOfDigitsQ ((dt.drop 2).take 2),
          natOfDigitsQ ((dt.drop 4).take 2), natOfDigitsQ ((dt.drop 6).take 2),
          natOfDigitsQ ((dt.drop 8).take 2) with
    | some yy, some mo, some dd, some hh, some mi =>
      let year := if yy > currentYear % 100 + 5 then 1900 + yy else 2000 + yy
      mkDt year mo dd hh mi
    | _, _, _, _, _ => none
  else if dt.length = 12 then
    match natOfDigitsQ (dt.take 4), natOfDigitsQ ((dt.drop 4).take 2),
          natOfDigitsQ ((dt.drop 6).take 2), natOfDigitsQ ((dt.drop 8).take 2),
          natOfDigitsQ ((dt.drop 10).take 2) with
    | some y, some mo, some dd, some hh, some mi => mkDt y mo dd hh mi
    | _, _, _, _, _ => none
  else none

/-- ([A-Z]d{4}/d{2})backslash-s+NOTAM([NRC]) -/
def idRx : Rx := rseqList [
  .grp 1 (rseqList [.cls rupper, .rep rdigit 4 (some 4) false, rch '/',
                    .rep rdigit 2 (some 2) false]),
  .rep rspace 1 none false,
  rlit "NOTAM",
  .grp 2 (.cls (fun c => c == 'N' || c == 'R' || c == 'C'))]

/-- Q)s*([A-Z]{4})/(Q[A-Z]{4})/([IV]{1,2})/([A-Z]+)/([AEW]+)/(d{3})/(d{3})/(d{4}[NS]d{5}[EW])(d{3})? -/
def qRx : Rx := rseqList [rch 'Q', rch ')', .rep rspace 0 none false,
  .grp 1 (.rep rupper 4 (some 4) false), rch '/',
  .grp 2 (.seq (rch 'Q') (.rep rupper 4 (some 4) false)), rch '/',
  .grp 3 (.rep (fun c => c == 'I' || c == 'V') 1 (some 2) false), rch '/',
  .grp 4 (.rep rupper 1 none false), rch '/',
  .grp 5 (.rep (fun c => c == 'A' || c == 'E' || c == 'W') 1 none false), rch '/',
  .grp 6 (.rep rdigit 3 (some 3) false), rch '/',
  .grp 7 (.rep rdigit 3 (some 3) false), rch '/',
  .grp 8 (rseqList [.rep rdigit 4 (some 4) false, .cls (fun c => c == 'N' || c == 'S'),
                    .rep rdigit 5 (some 5) false, .cls (fun c => c == 'E' || c == 'W')]),
  ropt (.grp 9 (.rep rdigit 3 (some 3) false))]

/-- A)s*([A-Z]{4}) -/
def aRx : Rx := rseqList [rch 'A', rch ')', .rep rspace 0 none false,
  .grp 1 (.rep rupper 4 (some 4) false)]

/-- B)s*(d{10,12}) -/
def bRx : Rx := rseqList [rch 'B', rch ')', .rep rspace 0 none false,
  .grp 1 (.rep rdigit 10 (some 12) false)]

/-- C)s*(d{10,12}|PERM|EST) -/
def cRx : Rx := rseqList [rch 'C', rch ')', .rep rspace 0 none false,
  .grp 1 (raltList [.rep rdigit 10 (some 12) false, rlit "PERM", rlit "EST"])]

/-- X)s*([^ newline ]+), the D, F and G field patterns. -/
def lineRx (c : Char) : Rx := rseqList [rch c, rch ')', .rep rspace 0 none false,
  .grp 1 (.rep rnotNl 1 none false)]

/-- E)s*(.+?)(?=s*[FG])|$) with DOTALL. -/
def eRx : Rx := rseqList [rch 'E', rch ')', .rep rspace 0 none false,
  .grp 1 (.rep rany 1 none true),
  .look (.alt (rseqList [.rep rspace 0 none false,
                         .cls (fun c => c == 'F' || c == 'G'), rch ')']) .eol)]

/-- _parse_raw_notam, parameterised like the datetime parser by the
wall-clock year.  Everything inside its try block is total, so the except
arm is unreachable; the only None return is the missing ID anchor. -/
def parse_raw_notam (currentYear : Nat) (text : List Char) : Option Notam :=
  match Re.search text idRx with
  | none => none
  | some idm =>
    let q_data : Option QData := (Re.search text qRx).map (fun m =>
      { fir := String.mk ((capGet m 1).getD []),
        code := String.mk ((capGet m 2).getD []),
        traffic := String.mk ((capGet m 3).getD []),
        purpose := String.mk ((capGet m 4).getD []),
        scope := String.mk ((capGet m 5).getD []),
        lower := String.mk ((capGet m 6).getD []),
        upper := String.mk ((capGet m 7).getD []),
        coordinates := String.mk ((capGet m 8).getD []),
        radius := (capGet m 9).map String.mk })
    let location : Option String := match Re.search text aRx with
      | some m => (capGet m 1).map String.mk
      | none => q_data.map (fun q => q.fir)
    let valid_from : Option String := (Re.search text bRx).bind (fun m =>
      parse_notam_datetime currentYear ((capGet m 1).getD []))
    let cval : Option (List Char) := (Re.search text cRx).map (fun m => (capGet m 1).getD [])
    let vt : Option String × Bool := match cval with
      | none => (none, false)
      | some v =>
        if v = "PERM".data then (none, true)
        else if v = "EST".data then (some "EST", false)
        else (parse_notam_datetime currentYear v, false)
    some {
      id := String.mk ((capGet idm 1).getD []),
      type := String.mk ((capGet idm 2).getD []),
      q_code := q_data.map (fun q => q.code),
      location := location,
      valid_from := valid_from,
      valid_to := vt.1,
      is_permanent := vt.2,
      schedule := (Re.search text (lineRx 'D')).map (fun m => String.mk (pyStrip ((capGet m 1).getD []))),
      description_raw := (Re.search text eRx).map (fun m => String.mk (pyStrip ((capGet m 1).getD []))),
      lower_limit := (Re.search text (lineRx 'F')).map (fun m => String.mk (pyStrip ((capGet m 1).getD []))),
      upper_limit := (Re.search text (lineRx 'G')).map (fun m => String.mk (pyStrip ((capGet m 1).getD []))),
      q_data := q_data,
      raw := String.mk (pyStrip text) }

end NOTAMCollector

/-!
Embedding of notam_decoder.py: the Q-code table, the severity classifier,
the category lookup performed in NOTAMDecoder.decode, and the abbreviation
substitution of _decode_description.
-/

namespace NOTAMDecoder

open Re Py

/-- The Q_CODES dict literal, bindings in written order.  The key QFAXX is
written twice in the source; the dict keeps the later value, which dictGet
reproduces. -/
def Q_CODES : List (String × String) := [
  ("QFALC", "аэродром закрыт"),
  ("QFALT", "альтернативный аэродром доступен"),
  ("QFAXX", "аэродром: прочее"),
  ("QMRLC", "ВПП закрыта"),
  ("QMRLT", "ВПП частично закрыта"),
  ("QMRXX", "ВПП: прочее"),
  ("QMRAS", "ВПП: длина сокращена"),
  ("QMRCC", "ВПП: состояние покрытия изменено"),
  ("QMXLC", "рулёжная дорожка закрыта"),
  ("QMXLT", "рулёжная дорожка частично закрыта"),
  ("QMXXX", "рулёжная дорожка: прочее"),
  ("QMALC", "перрон закрыт"),
  ("QMALT", "перрон частично закрыт"),
  ("QMAXX", "перрон: прочее"),
  ("QMGXX", "огни аэродрома: прочее"),
  ("QMGLU", "огни ВПП не работают"),
  ("QMGLT", "огни рулёжных дорожек не работают"),
  ("QMGLA", "огни перрона не работают"),
  ("QNIAS", "ILS не работает"),
  ("QNIAT", "ILS ограничено работает"),
  ("QNIXX", "ILS: прочее"),
  ("QNVXX", "VOR: прочее"),
  ("QNVAU", "VOR не работает"),
  ("QNDXX", "DME: прочее"),
  ("QNDAU", "DME не работает"),
  ("QNNXX", "NDB: прочее"),
  ("QNNAU", "NDB не работает"),
  ("QRRCA", "ограничение воздушного пространства активно"),
  ("QRRCT", "временное ограничение воздушного пространства"),
  ("QRPCA", "запретная зона активна"),
  ("QRDCA", "опасная зона активна"),
  ("QRTCA", "временная зона активна"),
  ("QRAXX", "воздушное пространство: прочее"),
  ("QOBXX", "препятствие: прочее"),
  ("QOBCE", "препятствие установлено"),
  ("QOBCL", "препятствие освещено"),
  ("QFAXX", "средства связи: прочее"),
  ("QFPXX", "процедуры полётов: прочее"),
  ("QWFXX", "прогноз погоды: прочее"),
  ("QWEAU", "метеостанция не работает"),
  ("QSAXX", "аэронавигационное обслуживание: прочее"),
  ("QSXXX", "службы: прочее"),
  ("QSFAU", "топливо недоступно"),
  ("QSUAS", "поисково-спасательная служба: прочее"),
  ("QSGAS", "обслуживание наземной техникой ограничено"),
  ("QXXXX", "прочее")]

/-- The ABBREVIATIONS dict literal, bindings in written order. -/
def ABBREVIATIONS : List (String × String) := [
  ("RWY", "ВПП"),
  ("TWY", "рулёжная дорожка"),
  ("APRON", "перрон"),
  ("TERMINAL", "терминал"),
  ("PARKING", "стоянка"),
  ("CLSD", "закрыт"),
  ("CLOSED", "закрыт"),
  ("OPEN", "открыт"),
  ("AVBL", "доступен"),
  ("AVAILABLE", "доступен"),
  ("U/S", "не работает"),
  ("UNSERVICEABLE", "не работает"),
  ("OPS", "эксплуатация"),
  ("OPR", "работает"),
  ("OPERATIONAL", "в работе"),
  ("MAINT", "техобслуживание"),
  ("MAINTENANCE", "техобслуживание"),
  ("WIP", "строительные работы"),
  ("WORK IN PROGRESS", "строительные работы"),
  ("CONST", "строительство"),
  ("CONSTRUCTION", "строительство"),
  ("REPAIR", "ремонт"),
  ("INSP", "инспекция"),
  ("INSPECTION", "инспекция"),
  ("ILS", "система инструментальной посадки"),
  ("VOR", "всенаправленный радиомаяк"),
  ("DME", "дальномерное оборудование"),
  ("NDB", "ненаправленный радиомаяк"),
  ("PAPI", "индикатор глиссады"),
  ("VASIS", "визуальная система захода на посадку"),
  ("LGT", "огни"),
  ("LIGHTS", "огни"),
  ("ALS", "огни захода на посадку"),
  ("EDGE", "кромочные огни"),
  ("CL", "осевые огни"),
  ("CENTERLINE", "осевые огни"),
  ("SFC", "поверхность"),
  ("GND", "земля"),
  ("AGL", "над уровнем земли"),
  ("AMSL", "над уровнем моря"),
  ("FT", "футов"),
  ("FL", "эшелон"),
  ("DAILY", "ежедневно"),
  ("MON", "понедельник"),
  ("TUE", "вторник"),
  ("WED", "среда"),
  ("THU", "четверг"),
  ("FRI", "пятница"),
  ("SAT", "суббота"),
  ("SUN", "воскресенье"),
  ("UTC", "всемирное время"),
  ("PERM", "постоянно"),
  ("TEMPO", "временно"),
  ("INFO", "информация"),
  ("ADZ", "зона аэродрома"),
  ("CTR", "диспетчерская зона"),
  ("FIR", "район полётной информации"),
  ("TMA", "диспетчерский район"),
  ("FREQ", "частота"),
  ("ATIS", "автоматическая информация")]

def critical_patterns : List String := ["QFALC", "QMRLC", "QMXLC", "QNIAS"]

def warning_patterns : List String := ["QMRLT", "QMALC", "QMGLU", "QRRCA", "QOBXX"]

/-- _classify_severity: exact match in the critical list, then the first
four characters of each warning pattern as a startswith test, else info. -/
def classify_severity (q_code : String) : String :=
  if critical_patterns.contains q_code then "critical"
  else if warning_patterns.any (fun p => beginsWith q_code.data (p.data.take 4)) then "warning"
  else "info"

/-- The category text assignment of NOTAMDecoder.decode:
Q_CODES.get(q_code, q_code). -/
def q_decoded (q_code : String) : String := (dictGet Q_CODES q_code).getD q_code

/-- The pattern built for one abbreviation: word boundary, the re.escape-d
key matched with IGNORECASE (no key contains a regex metacharacter, so the
escape is the identity), word boundary. -/
def abbrRx (abbr : String) : Rx := rseqList [.wordB, rlitCI abbr, .wordB]

/-- _decode_description: one re.sub per dictionary binding, in definition
order, each rewriting the output of the previous one. -/
def decode_description (description : List Char) : List Char :=
  ABBREVIATIONS.foldl (fun decoded pr => Re.subAll decoded (abbrRx pr.1) pr.2.data) description

end NOTAMDecoder

/-!
Claim-side definitions: statements of the spec, written from the wording of
the claims, to be compared against the embedded source functions, plus the
concrete inputs the claims name.
-/

/-- The spec wording of the weather-token scan: after the marker is
stripped, decode the remainder two characters at a time against the
phenomenon table, skipping any span with no match silently.  Written as
structural recursion on the character list. -/
def specScanWx : List Char → List String
  | [] => []
  | [c] =>
    match Py.dictGet TAFDecoder.WEATHER_PHENOMENA (String.mk [c]) with
    | some t => [t]
    | none => []
  | c :: d :: rest =>
    match Py.dictGet TAFDecoder.WEATHER_PHENOMENA (String.mk [c, d]) with
    | some t => t :: specScanWx rest
    | none => specScanWx (d :: rest)

/-- The spec wording of _decode_weather_code: strip one leading intensity
or proximity marker, then scan the remainder with specScanWx; the assembled
phrase is as in the source. -/
def decode_weather_code_spec (code : List Char) : Option String :=
  let stripped :=
    if Py.beginsWith code "-".data then (["слабый"], code.drop 1)
    else if Py.beginsWith code "+".data then (["сильный"], code.drop 1)
    else if Py.beginsWith code "VC".data then (["в окрестности"], code.drop 2)
    else ([], code)
  let parts := stripped.1 ++ specScanWx stripped.2
  if parts.isEmpty then none
  else some (TAFDecoder.get_weather_emoji stripped.2 ++ " " ++ String.intercalate " " parts)

/-- The century rule as the claim words it: compare the 2-digit year with
currentYear % 100 + 5; above the threshold the year sits in the previous
century, otherwise in the current one. -/
def centuryYear (currentYear yy : Nat) : Nat :=
  if yy > currentYear % 100 + 5 then 1900 + yy else 2000 + yy

/-- A text containing exactly one bare 4-digit token. -/
def vis4Input (n : Nat) : List Char := ' ' :: (Py.pad4 n ++ [' '])

/-- The TAF string of claim C1. -/
def c1taf : String :=
  "TAF UAAA 101100Z 1012/1112 32015G25KT 9999 FEW040 BKN100 TEMPO 1014/1018 4000 TSRA BKN020CB"

/-- A concrete NOTAM text block used to witness the extraction claims. -/
def notamSample : String :=
  "A1234/24 NOTAMN\nQ) UAAA/QMRLC/IV/NBO/A/000/999/4315N07657E005\nA) UAAA B) 2403011230 C) PERM\nE) RWY CLSD DUE MAINT"

/-!
Theorems.  Helper lemmas come first, then one theorem per claim, each with
the claim id in its doc comment.
-/

/-- A list is a prefix of another exactly when taking its length from the
other reproduces it; stated on the executable tests. -/
theorem isPrefixOf_eq_take : ∀ (p q : List Char), p.isPrefixOf q = (q.take p.length == p)
  | [], _ => by simp
  | _ :: _, [] => by simp [List.isPrefixOf]
  | a :: p, b :: q => by
    have hsymm : (a == b) = (b == a) := by
      by_cases h : a = b
      · subst h; rfl
      · rw [beq_eq_false_iff_ne.mpr h, beq_eq_false_iff_ne.mpr (Ne.symm h)]
    simp only [List.isPrefixOf, List.length_cons, List.take_succ_cons, List.cons_beq_cons]
    rw [isPrefixOf_eq_take p q, hsymm]

/-- C1: decoding the TAF string of the claim yields station UAAA, issue
time day 10 hour 11 minute 0, validity day 10 hour 12 to day 11 hour 12, a
baseline with wind direction 320 at 7 m/s gusting 12 m/s, visibility
10000 m, clouds exactly FEW 4000 ft then BKN 10000 ft, and exactly one
change group: TEMPO, visibility 4000 m, one weather phenomenon TSRA read as
thunderstorm rain, one cloud layer BKN 2000 ft of type CB. -/
theorem c1_taf_example_decodes :
    (TAFDecoder.decode c1taf).station = some "UAAA" ∧
    ((TAFDecoder.decode c1taf).issue_time.map (fun t => (t.day, t.hour, t.minute)))
      = some (10, 11, 0) ∧
    ((TAFDecoder.decode c1taf).valid_period.map
      (fun v => (v.from_day, v.from_hour, v.to_day, v.to_hour))) = some (10, 12, 11, 12) ∧
    ((TAFDecoder.decode c1taf).wind.map (fun w => (w.direction, w.speed, w.gusts)))
      = some (some (Sum.inr 320), 7, some 12) ∧
    ((TAFDecoder.decode c1taf).visibility.map (fun v => v.meters)) = some 10000 ∧
    ((TAFDecoder.decode c1taf).clouds.map (fun c => (c.cover, c.height_ft, c.type)))
      = [("FEW", 4000, none), ("BKN", 10000, none)] ∧
    ((TAFDecoder.decode c1taf).changes.map (fun c => c.indicator)) = ["TEMPO"] ∧
    ((TAFDecoder.decode c1taf).changes.map (fun c => c.visibility.map (fun v => v.meters)))
      = [some 4000] ∧
    ((TAFDecoder.decode c1taf).changes.map (fun c => c.weather.map (fun w => w.code)))
      = [["TSRA"]] ∧
    ((TAFDecoder.decode c1taf).changes.map (fun c => c.weather.map (fun w => w.text)))
      = [["⛈️ гроза дождь"]] ∧
    ((TAFDecoder.decode c1taf).changes.map
      (fun c => c.clouds.map (fun cl => (cl.cover, cl.height_ft, cl.type))))
      = [[("BKN", 2000, some "CB")]] := by
  refine ⟨?_, ?_, ?_, ?_, ?_, ?_, ?_, ?_, ?_, ?_, ?_⟩ <;> decide

/-- C3: severity classification is critical exactly on the fixed critical
set, otherwise warning exactly when the first four characters agree with
the first four characters of a warning pattern, otherwise info; a code
missing from the Q-code table keeps itself as category text; QFALC is
critical, QMRLT warning, QZZZZ info with category text QZZZZ. -/
theorem c3_severity_classification :
    (∀ q : String, NOTAMDecoder.classify_severity q =
      (if NOTAMDecoder.critical_patterns.contains q then "critical"
       else if NOTAMDecoder.warning_patterns.any
           (fun w => q.data.take 4 == w.data.take 4) then "warning"
       else "info")) ∧
    NOTAMDecoder.classify_severity "QFALC" = "critical" ∧
    NOTAMDecoder.classify_severity "QMRLT" = "warning" ∧
    NOTAMDecoder.classify_severity "QZZZZ" = "info" ∧
    NOTAMDecoder.q_decoded "QZZZZ" = "QZZZZ" ∧
    (∀ q : String, Py.dictGet NOTAMDecoder.Q_CODES q = none → NOTAMDecoder.q_decoded q = q) := by
  refine ⟨fun q => ?_, by decide, by decide, by decide, by decide, fun q h => ?_⟩
  · have hany : NOTAMDecoder.warning_patterns.any
        (fun p => Py.beginsWith q.data (p.data.take 4))
        = NOTAMDecoder.warning_patterns.any (fun w => q.data.take 4 == w.data.take 4) := by
      simp only [NOTAMDecoder.warning_patterns, List.any_cons, List.any_nil, Py.beginsWith,
        isPrefixOf_eq_take]
      rfl
    rw [NOTAMDecoder.classify_severity, hany]
  · rw [NOTAMDecoder.q_decoded, h]
    rfl

/-- Witness for C3: the general parts applied at QZZZZ and QFALC. -/
theorem c3_witness :
    NOTAMDecoder.q_decoded "QZZZZ" = "QZZZZ" ∧
    NOTAMDecoder.classify_severity "QFALC" =
      (if NOTAMDecoder.critical_patterns.contains "QFALC" then "critical"
       else if NOTAMDecoder.warning_patterns.any
           (fun w => "QFALC".data.take 4 == w.data.take 4) then "warning"
       else "info") :=
  ⟨c3_severity_classification.2.2.2.2.2 "QZZZZ" (by decide),
   c3_severity_classification.1 "QFALC"⟩

/-- The index loop of the weather-code scan returns nothing once the index
leaves the string, whatever fuel remains. -/
theorem weatherParts_stop (f : Nat) (code : List Char) (i : Nat) (h : code.length ≤ i) :
    TAFDecoder.weatherParts f code i = [] := by
  cases f with
  | zero => rfl
  | succ f => simp only [TAFDecoder.weatherParts, if_neg (Nat.not_lt.mpr h)]

/-- The index loop of the weather-code scan agrees with the structural
two-characters-at-a-time scan on the remaining suffix. -/
theorem weatherParts_eq_spec : ∀ (f : Nat) (code : List Char) (i : Nat),
    code.length - i ≤ f → TAFDecoder.weatherParts f code i = specScanWx (code.drop i) := by
  intro f
  induction f with
  | zero =>
    intro code i h
    rw [List.drop_eq_nil_of_le (by omega), weatherParts_stop 0 code i (by omega)]
    rfl
  | succ f ih =>
    intro code i h
    by_cases hi : i < code.length
    · have hd1 : code.drop i = code[i] :: code.drop (i + 1) := List.drop_eq_getElem_cons hi
      by_cases hi2 : i + 1 < code.length
      · have hd2 : code.drop (i + 1) = code[i + 1] :: code.drop (i + 2) :=
          List.drop_eq_getElem_cons hi2
        have ht : (code.drop i).take 2 = [code[i], code[i + 1]] := by
          rw [hd1, hd2]; rfl
        rw [hd1, hd2]
        simp only [TAFDecoder.weatherParts, if_pos hi, ht]
        cases hlook : Py.dictGet TAFDecoder.WEATHER_PHENOMENA (String.mk [code[i], code[i + 1]]) with
        | some t =>
          simp only [specScanWx, hlook]
          rw [ih code (i + 2) (by omega)]
        | none =>
          simp only [specScanWx, hlook]
          rw [ih code (i + 1) (by omega), hd2]
      · have hd2 : code.drop (i + 1) = [] := List.drop_eq_nil_of_le (by omega)
        have ht : (code.drop i).take 2 = [code[i]] := by rw [hd1, hd2]; rfl
        rw [hd1, hd2]
        simp only [TAFDecoder.weatherParts, if_pos hi, ht]
        cases hlook : Py.dictGet TAFDecoder.WEATHER_PHENOMENA (String.mk [code[i]]) with
        | some t =>
          simp only [specScanWx, hlook]
          rw [weatherParts_stop f code (i + 2) (by omega)]
        | none =>
          simp only [specScanWx, hlook]
          rw [weatherParts_stop f code (i + 1) (by omega)]
    · rw [List.drop_eq_nil_of_le (by omega), weatherParts_stop _ code i (by omega)]
      rfl

/-- C5: decoding a weather phenomenon token strips one leading intensity or
proximity marker and then greedily decodes the remainder two characters at
a time against the phenomenon table, silently skipping positions whose
two-character window has no table entry (advancing one character past a
miss), so malformed or extended codes decode partially and no input is
rejected: the source loop equals the spec-side strip-then-scan description
on every input. -/
theorem c5_weather_token_decoding : ∀ (code : List Char),
    TAFDecoder.decode_weather_code code = decode_weather_code_spec code := by
  intro code
  rw [TAFDecoder.decode_weather_code, decode_weather_code_spec]
  rw [weatherParts_eq_spec _ _ 0 (by omega)]
  rfl

/-- C7: NOTAM extraction yields no record at all exactly when the ID-and-
kind anchor pattern has no match, and on a match the record carries the
matched ID string and type letter unchanged. -/
theorem c7_extraction_fails_closed : ∀ (cy : Nat) (text : List Char),
    (Re.search text NOTAMCollector.idRx = none → NOTAMCollector.parse_raw_notam cy text = none) ∧
    (∀ m : Re.MRes, Re.search text NOTAMCollector.idRx = some m →
      (NOTAMCollector.parse_raw_notam cy text).map (fun r => (r.id, r.type))
        = some (String.mk ((Re.capGet m 1).getD []), String.mk ((Re.capGet m 2).getD []))) := by
  intro cy text
  constructor
  · intro h
    rw [NOTAMCollector.parse_raw_notam, h]
  · intro m h
    rw [NOTAMCollector.parse_raw_notam, h]
    rfl

/-- Witness for C7: a block with no anchor gives no record; the sample
NOTAM gives a record carrying its ID and kind byte for byte. -/
theorem c7_witness :
    NOTAMCollector.parse_raw_notam 2025 "no anchor in this text".data = none ∧
    (NOTAMCollector.parse_raw_notam 2025 notamSample.data).map (fun r => (r.id, r.type))
      = some ("A1234/24", "N") := by
  refine ⟨(c7_extraction_fails_closed 2025 "no anchor in this text".data).1 (by decide), ?_⟩
  cases hm : Re.search notamSample.data NOTAMCollector.idRx with
  | none => exact absurd hm (by decide)
  | some m =>
    rw [(c7_extraction_fails_closed 2025 notamSample.data).2 m hm]
    have h2 : (Re.search notamSample.data NOTAMCollector.idRx).map
        (fun m => (String.mk ((Re.capGet m 1).getD []), String.mk ((Re.capGet m 2).getD [])))
        = some ("A1234/24", "N") := by decide
    rw [hm] at h2
    simpa using h2

/-- C10: in every extracted record the permanent flag implies an absent end
timestamp, and a C field reading PERM sets the flag and leaves the end
timestamp absent. -/
theorem c10_permanent_invariant : ∀ (cy : Nat) (text : List Char) (r : NOTAMCollector.Notam),
    NOTAMCollector.parse_raw_notam cy text = some r →
    (r.is_permanent = true → r.valid_to = none) ∧
    ((Re.search text NOTAMCollector.cRx).map (fun m => (Re.capGet m 1).getD [])
        = some "PERM".data →
      r.is_permanent = true ∧ r.valid_to = none) := by
  intro cy text r h
  rw [NOTAMCollector.parse_raw_notam] at h
  cases hid : Re.search text NOTAMCollector.idRx with
  | none => rw [hid] at h; exact absurd h (by simp)
  | some idm =>
    rw [hid] at h
    simp only [Option.some.injEq] at h
    subst h
    cases hc : Re.search text NOTAMCollector.cRx with
    | none => simp [hc]
    | some cm =>
      simp only [hc, Option.map_some]
      by_cases hperm : (Re.capGet cm 1).getD [] = "PERM".data
      · simp [hperm]
      · by_cases hest : (Re.capGet cm 1).getD [] = "EST".data
        · simp [hperm, hest]
        · simp [hperm, hest]

/-- Witness for C10: the sample NOTAM with C) PERM extracts with the
permanent flag set and no end timestamp. -/
theorem c10_witness :
    (NOTAMCollector.parse_raw_notam 2025 notamSample.data).map
      (fun r => (r.is_permanent, r.valid_to)) = some (true, none) := by
  cases hp : NOTAMCollector.parse_raw_notam 2025 notamSample.data with
  | none => exact absurd hp (by decide)
  | some r =>
    have h2 := (c10_permanent_invariant 2025 notamSample.data r hp).2 (by decide)
    simp [h2.1, h2.2]

/-- C8 counterexample: the empty string does not surface an explicit
failure from TAFDecoder.decode — it decodes to a record with every field
absent and no error set, so the claim that an empty whole input is a
condition that surfaces an explicit failure to the caller is false. -/
theorem c8_counterexample :
    TAFDecoder.decode "" =
      { raw := "", station := none, issue_time := none, valid_period := none,
        wind := none, visibility := none, weather := [], clouds := [],
        temperature := none, changes := [], error := none } := by decide

/-- C8 amended: no string input surfaces an explicit failure from a decode
call — the error key of TAFDecoder.decode is never set, and NOTAM
extraction answers the empty string with no record rather than an error;
structural misses, malformed sub-fields and unrecognized tokens are
absorbed as absent fields by the total sub-parsers.  (Non-string input
fails before any handler and is outside this typed embedding.) -/
theorem c8_failure_surface :
    (∀ s : String, (TAFDecoder.decode s).error = none) ∧
    (∀ cy : Nat, NOTAMCollector.parse_raw_notam cy "".data = none) :=
  ⟨fun _ => rfl, fun _ => rfl⟩

/-- int on a nonempty all-digit slice succeeds with its decimal value. -/
theorem natOfDigitsQ_of_digits (l : List Char) (hne : l ≠ [])
    (hd : ∀ c ∈ l, c.isDigit) : Py.natOfDigitsQ l = some (Py.natOfDigits l) := by
  rw [Py.natOfDigitsQ, if_neg (by simpa [List.isEmpty_iff] using hne),
    if_pos (List.all_eq_true.mpr hd)]

/-- C2 counterexample: the claim allows any current year up to 2024, but at
current year 1999 the two-digit year 99 is at most the threshold
99 % 100 + 5, so it decodes to 2099, not 1999. -/
theorem c2_counterexample :
    NOTAMCollector.parse_notam_datetime 1999 "9912312359".data = some "2099-12-31T23:59:00Z"
      ∧ (1999 : Nat) ≤ 2024 := ⟨by decide, by decide⟩

/-- C2 amended: a 10-digit all-digit timestamp decodes as YYMMDDHHmm with
the century resolved by comparing YY against currentYear % 100 + 5 and with
out-of-range fields giving an absent datetime (both carried by mkDt); a
12-digit value is read as YYYYMMDDHHmm as-is; 2403011230 decodes to
2024-03-01T12:30 whenever the current year has two-digit part at least 19,
and a two-digit year 99 decodes to 1999 whenever the current year has
two-digit part at most 93 (rather than for every current year up to
2024). -/
theorem c2_datetime_century :
    (∀ (cy : Nat) (s : List Char), s.length = 10 → (∀ c ∈ s, c.isDigit) →
      NOTAMCollector.parse_notam_datetime cy s =
        NOTAMCollector.mkDt (centuryYear cy (Py.natOfDigits (s.take 2)))
          (Py.natOfDigits ((s.drop 2).take 2)) (Py.natOfDigits ((s.drop 4).take 2))
          (Py.natOfDigits ((s.drop 6).take 2)) (Py.natOfDigits ((s.drop 8).take 2))) ∧
    (∀ (cy : Nat) (s : List Char), s.length = 12 → (∀ c ∈ s, c.isDigit) →
      NOTAMCollector.parse_notam_datetime cy s =
        NOTAMCollector.mkDt (Py.natOfDigits (s.take 4))
          (Py.natOfDigits ((s.drop 4).take 2)) (Py.natOfDigits ((s.drop 6).take 2))
          (Py.natOfDigits ((s.drop 8).take 2)) (Py.natOfDigits ((s.drop 10).take 2))) ∧
    (∀ cy : Nat, 19 ≤ cy % 100 →
      NOTAMCollector.parse_notam_datetime cy "2403011230".data = some "2024-03-01T12:30:00Z") ∧
    (∀ cy : Nat, cy % 100 ≤ 93 →
      NOTAMCollector.parse_notam_datetime cy "9912312359".data = some "1999-12-31T23:59:00Z") := by
  have part1 : (∀ (cy : Nat) (s : List Char), s.length = 10 → (∀ c ∈ s, c.isDigit) →
      NOTAMCollector.parse_notam_datetime cy s =
        NOTAMCollector.mkDt (centuryYear cy (Py.natOfDigits (s.take 2)))
          (Py.natOfDigits ((s.drop 2).take 2)) (Py.natOfDigits ((s.drop 4).take 2))
          (Py.natOfDigits ((s.drop 6).take 2)) (Py.natOfDigits ((s.drop 8).take 2))) := by
    intro cy s h10 hdig
    have hq : ∀ (k n : Nat), k + n ≤ 10 → 0 < n →
        Py.natOfDigitsQ ((s.drop k).take n) = some (Py.natOfDigits ((s.drop k).take n)) := by
      intro k n hk hn
      refine natOfDigitsQ_of_digits _ ?_ ?_
      · have hlen : ((s.drop k).take n).length = n := by
          simp [List.length_take, List.length_drop, h10]
          omega
        intro hnil
        rw [hnil] at hlen
        simp at hlen
        omega
      · intro c hc
        exact hdig c (List.drop_subset k s (List.take_subset n (s.drop k) hc))
    rw [NOTAMCollector.parse_notam_datetime, if_pos h10]
    have h0 : Py.natOfDigitsQ (s.take 2) = some (Py.natOfDigits (s.take 2)) := by
      have := hq 0 2 (by omega) (by omega)
      simpa using this
    rw [h0, hq 2 2 (by omega) (by omega), hq 4 2 (by omega) (by omega),
      hq 6 2 (by omega) (by omega), hq 8 2 (by omega) (by omega)]
    rfl
  refine ⟨part1, ?_, ?_, ?_⟩
  · intro cy s h12 hdig
    have hq : ∀ (k n : Nat), k + n ≤ 12 → 0 < n →
        Py.natOfDigitsQ ((s.drop k).take n) = some (Py.natOfDigits ((s.drop k).take n)) := by
      intro k n hk hn
      refine natOfDigitsQ_of_digits _ ?_ ?_
      · have hlen : ((s.drop k).take n).length = n := by
          simp [List.length_take, List.length_drop, h12]
          omega
        intro hnil
        rw [hnil] at hlen
        simp at hlen
        omega
      · intro c hc
        exact hdig c (List.drop_subset k s (List.take_subset n (s.drop k) hc))
    rw [NOTAMCollector.parse_notam_datetime, if_neg (by omega), if_pos h12]
    have h0 : Py.natOfDigitsQ (s.take 4) = some (Py.natOfDigits (s.take 4)) := by
      have := hq 0 4 (by omega) (by omega)
      simpa using this
    rw [h0, hq 4 2 (by omega) (by omega), hq 6 2 (by omega) (by omega),
      hq 8 2 (by omega) (by omega), hq 10 2 (by omega) (by omega)]
  · intro cy h
    rw [part1 cy "2403011230".data (by decide) (by decide)]
    rw [show Py.natOfDigits ("2403011230".data.take 2) = 24 from by decide]
    rw [centuryYear, if_neg (by omega)]
    decide
  · intro cy h
    rw [part1 cy "9912312359".data (by decide) (by decide)]
    rw [show Py.natOfDigits ("9912312359".data.take 2) = 99 from by decide]
    rw [centuryYear, if_pos (by omega)]
    decide

/-- Witness for C2: the amended rule applied at current year 2025 to the
claim's own 10-digit example. -/
theorem c2_witness :
    NOTAMCollector.parse_notam_datetime 2025 "2403011230".data
      = some "2024-03-01T12:30:00Z" :=
  c2_datetime_century.2.2.1 2025 (by decide)

/-- A result of matching a sequence factors through a result of the first
part. -/
theorem mem_mrun_seq {full : List Char} {a b : Re.Rx} {i : Nat} {caps : Re.Caps}
    {r : Nat × Re.Caps} (h : r ∈ Re.mrun full (.seq a b) i caps) :
    ∃ s, s ∈ Re.mrun full a i caps ∧ r ∈ Re.mrun full b s.1 s.2 := by
  simp only [Re.mrun, List.mem_flatten, List.mem_map] at h
  obtain ⟨l, ⟨s, hs, hl⟩, hr⟩ := h
  exact ⟨s, hs, hl ▸ hr⟩

/-- A word-boundary element only matches where the boundary holds, without
moving. -/
theorem mem_mrun_wordB {full : List Char} {i : Nat} {caps : Re.Caps}
    {r : Nat × Re.Caps} (h : r ∈ Re.mrun full .wordB i caps) :
    r.1 = i ∧ Re.boundaryAt full i = true := by
  by_cases hb : Re.boundaryAt full i = true
  · simp only [Re.mrun, if_pos hb, List.mem_singleton] at h
    exact ⟨by rw [h], hb⟩
  · simp only [Re.mrun, if_neg hb, List.not_mem_nil] at h

theorem mem_mrun_eps {full : List Char} {i : Nat} {caps : Re.Caps}
    {r : Nat × Re.Caps} (h : r ∈ Re.mrun full .eps i caps) : r.1 = i := by
  simp only [Re.mrun, List.mem_singleton] at h
  rw [h]

/-- A successful search returns a genuine matcher result at its start. -/
theorem searchFromAux_mem_mrun {full : List Char} {r : Re.Rx} :
    ∀ (fuel i : Nat) (m : Re.MRes), Re.searchFromAux full r fuel i = some m →
      (m.mend, m.caps) ∈ Re.mrun full r m.mstart [] := by
  intro fuel
  induction fuel with
  | zero => intro i m h; exact absurd h (by simp [Re.searchFromAux])
  | succ fuel ih =>
    intro i m h
    rw [Re.searchFromAux] at h
    cases hmr : Re.mrun full r i [] with
    | nil =>
      rw [hmr] at h
      by_cases hi : i < full.length
      · rw [if_pos hi] at h
        exact ih (i + 1) m h
      · rw [if_neg hi] at h
        exact absurd h (by simp)
    | cons a tail =>
      rw [hmr] at h
      simp only [Option.some.injEq] at h
      subst h
      simp only [hmr]
      exact List.mem_cons_self a tail

theorem searchFrom_mem_mrun {full : List Char} {r : Re.Rx} {i : Nat} {m : Re.MRes}
    (h : Re.searchFrom full r i = some m) :
    (m.mend, m.caps) ∈ Re.mrun full r m.mstart [] :=
  searchFromAux_mem_mrun _ _ m h

/-- Every match produced by the iterator comes from a successful search. -/
theorem finditerAux_subset_search {full : List Char} {r : Re.Rx} :
    ∀ (fuel i : Nat) (m : Re.MRes), m ∈ Re.finditerAux full r fuel i →
      ∃ j, Re.searchFrom full r j = some m := by
  intro fuel
  induction fuel with
  | zero => intro i m h; exact absurd h (by simp [Re.finditerAux])
  | succ fuel ih =>
    intro i m h
    rw [Re.finditerAux] at h
    cases hs : Re.searchFrom full r i with
    | none => rw [hs] at h; exact absurd h (by simp)
    | some m0 =>
      rw [hs] at h
      rcases List.mem_cons.mp h with h1 | h2
      · exact ⟨i, h1 ▸ hs⟩
      · exact ih _ m h2

/-- Every span the abbreviation pattern can replace sits between word
boundaries of the subject text: the pattern opens and closes with a
boundary element, so no match starts or ends inside a word. -/
theorem abbr_match_boundaries (abbr : String) (s : List Char) (m : Re.MRes)
    (h : m ∈ Re.finditer s (NOTAMDecoder.abbrRx abbr)) :
    Re.boundaryAt s m.mstart = true ∧ Re.boundaryAt s m.mend = true := by
  obtain ⟨j, hj⟩ := finditerAux_subset_search _ _ m h
  have hm := searchFrom_mem_mrun hj
  rw [NOTAMDecoder.abbrRx, Re.rseqList, Re.rseqList, Re.rseqList, Re.rseqList] at hm
  obtain ⟨s1, hs1, hrest⟩ := mem_mrun_seq hm
  obtain ⟨hs1i, hb1⟩ := mem_mrun_wordB hs1
  obtain ⟨s2, _, hrest2⟩ := mem_mrun_seq hrest
  obtain ⟨s3, hs3, heps⟩ := mem_mrun_seq hrest2
  obtain ⟨hs3i, hb3⟩ := mem_mrun_wordB hs3
  have hend := mem_mrun_eps heps
  refine ⟨hs1i ▸ hb1, ?_⟩
  have hme : m.mend = s2.1 := hend.trans hs3i
  rw [hme]
  exact hb3

/-- C9: abbreviation translation replaces every whole-word occurrence and
never touches an abbreviation embedded in a longer token: the claim input
translates with DUE untouched, AIRWAY is left whole, and in general every
span the per-abbreviation pattern matches starts and ends on a word
boundary of the text. -/
theorem c9_abbreviation_translation :
    String.mk (NOTAMDecoder.decode_description "RWY CLSD DUE MAINT".data)
      = "ВПП закрыт DUE техобслуживание" ∧
    String.mk (NOTAMDecoder.decode_description "AIRWAY".data) = "AIRWAY" ∧
    (∀ (abbr : String) (s : List Char) (m : Re.MRes),
      m ∈ Re.finditer s (NOTAMDecoder.abbrRx abbr) →
      Re.boundaryAt s m.mstart = true ∧ Re.boundaryAt s m.mend = true) :=
  ⟨by set_option maxRecDepth 200000 in decide,
   by set_option maxRecDepth 200000 in decide,
   abbr_match_boundaries⟩

/-- Witness for C9: the boundary statement applied to the only match of RWY
in a sample text, whose span 2 to 5 lies on word boundaries. -/
theorem c9_witness :
    Re.boundaryAt "X RWY Y".data 2 = true ∧ Re.boundaryAt "X RWY Y".data 5 = true := by
  cases hm : Re.finditer "X RWY Y".data (NOTAMDecoder.abbrRx "RWY") with
  | nil => exact absurd hm (by decide)
  | cons m rest =>
    have h := c9_abbreviation_translation.2.2 "RWY" "X RWY Y".data m
      (hm ▸ List.mem_cons_self m rest)
    have h2 : (Re.finditer "X RWY Y".data (NOTAMDecoder.abbrRx "RWY")).map
        (fun m => (m.mstart, m.mend)) = [(2, 5)] := by decide
    rw [hm] at h2
    simp only [List.map_cons, List.cons.injEq, Prod.mk.injEq] at h2
    rw [← h2.1.1, ← h2.1.2]
    exact h

/-- A natural quotient is at most the exact rational quotient. -/
theorem natDiv_le_ratDiv (a b : Nat) (hb : 0 < b) :
    ((a / b : Nat) : ℚ) ≤ (a : ℚ) / (b : ℚ) := by
  rw [le_div_iff₀ (by exact_mod_cast hb)]
  exact_mod_cast Nat.div_mul_le_self a b

/-- The exact rational quotient lies under the natural quotient plus one. -/
theorem ratDiv_lt_natDiv_succ (a b : Nat) (hb : 0 < b) :
    (a : ℚ) / (b : ℚ) < ((a / b : Nat) : ℚ) + 1 := by
  rw [div_lt_iff₀ (by exact_mod_cast hb)]
  have h1 := Nat.div_add_mod a b
  have h2 := Nat.mod_lt a hb
  have h3 : a < (a / b + 1) * b := by
    calc a = b * (a / b) + a % b := h1.symm
      _ < b * (a / b) + b := by omega
      _ = (a / b + 1) * b := by ring
  exact_mod_cast h3

/-- C4: the KT speed conversion used by wind decoding is the truncation
(floor, not rounding) of the exact product speed times 0.514, for every
speed; the compass sector is floor of (degrees plus 22.5) over 45, mod 8;
and the token 32015G25KT decodes to direction 320 in sector 7 (СЗ), speed
7 m/s, gusts 12 m/s. -/
theorem c4_wind_conversion :
    (∀ n : Nat, ((TAFDecoder.ktToMps n : ℚ) ≤ (n : ℚ) * 0.514 ∧
      (n : ℚ) * 0.514 < (TAFDecoder.ktToMps n : ℚ) + 1)) ∧
    (∀ d : Nat, ((TAFDecoder.dirIdx d : ℤ) = ⌊((d : ℚ) + 22.5) / 45⌋ % 8)) ∧
    TAFDecoder.dirIdx 320 = 7 ∧
    ((TAFDecoder.parse_wind "32015G25KT".data).map
      (fun w => (w.speed, w.direction, w.direction_text, w.gusts)))
      = some (7, some (Sum.inr 320), some "СЗ", some 12) := by
  have key : ∀ n : Nat, (n : ℚ) * 0.514 = ((n * 514 : Nat) : ℚ) / ((1000 : Nat) : ℚ) := by
    intro n
    push_cast
    ring_nf
  refine ⟨fun n => ?_, fun d => ?_, by decide, by decide⟩
  · rw [key, TAFDecoder.ktToMps]
    exact ⟨natDiv_le_ratDiv _ _ (by omega), ratDiv_lt_natDiv_succ _ _ (by omega)⟩
  · have hq : ((d : ℚ) + 22.5) / 45 = ((d * 10 + 225 : Nat) : ℚ) / ((450 : Nat) : ℚ) := by
      push_cast
      ring_nf
    have hfl : ⌊((d : ℚ) + 22.5) / 45⌋ = (((d * 10 + 225) / 450 : Nat) : ℤ) := by
      rw [hq, Int.floor_eq_iff]
      constructor
      · exact_mod_cast natDiv_le_ratDiv (d * 10 + 225) 450 (by omega)
      · exact_mod_cast ratDiv_lt_natDiv_succ (d * 10 + 225) 450 (by omega)
    rw [hfl, TAFDecoder.dirIdx]
    push_cast
    ring

/-- The decimal digit characters are digits. -/
theorem dChar_isDigit (k : Nat) (h : k < 10) : (Py.dChar k).isDigit = true := by
  interval_cases k <;> decide

/-- Reading back the value of a decimal digit character. -/
theorem dVal_dChar (k : Nat) (h : k < 10) : Py.dVal (Py.dChar k) = k := by
  interval_cases k <;> decide

theorem dChar_eq_nine (k : Nat) (h : k < 10) : (Py.dChar k = '9') ↔ k = 9 := by
  interval_cases k <;> simp <;> decide

/-- A non-digit character never equals a digit character. -/
theorem beq_false_of_digit (c w : Char) (hc : c.isDigit = false) (hw : w.isDigit = true) :
    (c == w) = false := by
  cases h : c == w
  · rfl
  · rw [eq_of_beq h, hw] at hc
    exact hc.symm ▸ rfl

/-- A one-token text of four digit characters never contains CAVOK. -/
theorem no_cavok4 (w x y z : Char) (hw : w.isDigit = true) (hx : x.isDigit = true)
    (hy : y.isDigit = true) (hz : z.isDigit = true) :
    Py.containsSub [' ', w, x, y, z, ' '] "CAVOK".data = false := by
  have hC : (('C' : Char).isDigit) = false := by decide
  simp [Py.containsSub, List.isPrefixOf,
    beq_false_of_digit 'C' w hC hw, beq_false_of_digit 'C' x hC hx,
    beq_false_of_digit 'C' y hC hy, beq_false_of_digit 'C' z hC hz]

/-- A one-token text whose four characters are not all the digit nine never
contains the substring 9999. -/
theorem no_9999_4 (w x y z : Char) (h9 : ¬(w = '9' ∧ x = '9' ∧ y = '9' ∧ z = '9')) :
    Py.containsSub [' ', w, x, y, z, ' '] "9999".data = false := by
  have e0 : (('9' : Char) == ' ') = false := by decide
  have e1 : ∀ (c : Char), c ≠ '9' → (('9' : Char) == c) = false := fun c h =>
    beq_eq_false_iff_ne.mpr (Ne.symm h)
  rcases not_and_or.mp h9 with h | h9b
  · simp [Py.containsSub, List.isPrefixOf, e0, e1 w h]
  rcases not_and_or.mp h9b with h | h9c
  · simp [Py.containsSub, List.isPrefixOf, e0, e1 x h]
  rcases not_and_or.mp h9c with h | h
  · simp [Py.containsSub, List.isPrefixOf, e0, e1 y h]
  · simp [Py.containsSub, List.isPrefixOf, e0, e1 z h]

/-- The visibility pattern finds the bare 4-digit token at position 1 of a
one-token text, capturing its digits. -/
theorem search_vis4 (w x y z : Char) (hw : w.isDigit = true) (hx : x.isDigit = true)
    (hy : y.isDigit = true) (hz : z.isDigit = true) :
    Re.search [' ', w, x, y, z, ' '] TAFDecoder.visRx = some ⟨0, 6, [(1, [w, x, y, z])]⟩ := by
  have hm : Re.mrun [' ', w, x, y, z, ' '] TAFDecoder.visRx 0 [] = [(6, [(1, [w, x, y, z])])] := by
    simp [TAFDecoder.visRx, Re.rseqList, Re.mrun, Re.runLenFrom, Re.repCounts,
      Re.rspace, Re.rdigit, Re.isPySpace, hw, hx, hy, hz, List.takeWhile,
      List.range_succ, List.range_zero, Function.comp]
  rw [Re.search, Re.searchFrom]
  norm_num
  rw [Re.searchFromAux, hm]

/-- Visibility decoding maps the one-token text of any 4-digit figure below
9999 to that many metres with its quality tier. -/
theorem parse_vis4 (n : Nat) (hn : n ≤ 9998) :
    (TAFDecoder.parse_visibility (vis4Input n)).map (fun v => (v.meters, v.quality))
      = some (n, some (TAFDecoder.visQuality n)) := by
  have ha : n / 1000 % 10 < 10 := Nat.mod_lt _ (by omega)
  have hb : n / 100 % 10 < 10 := Nat.mod_lt _ (by omega)
  have hc : n / 10 % 10 < 10 := Nat.mod_lt _ (by omega)
  have hd : n % 10 < 10 := Nat.mod_lt _ (by omega)
  have hshape : vis4Input n = [' ', Py.dChar (n / 1000 % 10), Py.dChar (n / 100 % 10),
      Py.dChar (n / 10 % 10), Py.dChar (n % 10), ' '] := by
    simp [vis4Input, Py.pad4]
  have h9 : ¬(Py.dChar (n / 1000 % 10) = '9' ∧ Py.dChar (n / 100 % 10) = '9' ∧
      Py.dChar (n / 10 % 10) = '9' ∧ Py.dChar (n % 10) = '9') := by
    rw [dChar_eq_nine _ ha, dChar_eq_nine _ hb, dChar_eq_nine _ hc, dChar_eq_nine _ hd]
    omega
  have hval : Py.natOfDigits [Py.dChar (n / 1000 % 10), Py.dChar (n / 100 % 10),
      Py.dChar (n / 10 % 10), Py.dChar (n % 10)] = n := by
    simp [Py.natOfDigits, dVal_dChar _ ha, dVal_dChar _ hb, dVal_dChar _ hc,
      dVal_dChar _ hd]
    omega
  rw [hshape, TAFDecoder.parse_visibility]
  rw [no_cavok4 _ _ _ _ (dChar_isDigit _ ha) (dChar_isDigit _ hb) (dChar_isDigit _ hc)
    (dChar_isDigit _ hd)]
  rw [no_9999_4 _ _ _ _ h9]
  rw [search_vis4 _ _ _ _ (dChar_isDigit _ ha) (dChar_isDigit _ hb) (dChar_isDigit _ hc)
    (dChar_isDigit _ hd)]
  simp [Re.capGet, hval]

/-- C6: any text containing CAVOK and any text containing 9999 but not
CAVOK both decode to 10000 metres, with two distinct annotation texts; a
bare 4-digit token below 9999 decodes to its own metre figure with quality
tier good at or above 5000, moderate from 3000 to 4999, limited from 1000
to 2999 and poor below 1000. -/
theorem c6_visibility_normalization :
    (∀ t, Py.containsSub t "CAVOK".data = true →
      (TAFDecoder.parse_visibility t).map (fun v => (v.meters, v.text))
        = some (10000, "👁️ видимость более 10 км, без облачности ниже 1500м, без грозовых явлений (CAVOK)")) ∧
    (∀ t, Py.containsSub t "CAVOK".data = false → Py.containsSub t "9999".data = true →
      (TAFDecoder.parse_visibility t).map (fun v => (v.meters, v.text))
        = some (10000, "👁️ видимость 10 км и более")) ∧
    ("👁️ видимость более 10 км, без облачности ниже 1500м, без грозовых явлений (CAVOK)" : String)
      ≠ "👁️ видимость 10 км и более" ∧
    (∀ n, n ≤ 9998 → (TAFDecoder.parse_visibility (vis4Input n)).map (fun v => (v.meters, v.quality))
        = some (n, some (TAFDecoder.visQuality n))) ∧
    (∀ m : Nat, (TAFDecoder.visQuality m = "хорошая" ↔ 5000 ≤ m) ∧
      (TAFDecoder.visQuality m = "средняя" ↔ 3000 ≤ m ∧ m < 5000) ∧
      (TAFDecoder.visQuality m = "ограниченная" ↔ 1000 ≤ m ∧ m < 3000) ∧
      (TAFDecoder.visQuality m = "плохая" ↔ m < 1000)) := by
  refine ⟨fun t h => ?_, fun t h1 h2 => ?_, by decide, parse_vis4, fun m => ?_⟩
  · rw [TAFDecoder.parse_visibility, if_pos h]
    rfl
  · rw [TAFDecoder.parse_visibility, if_neg (by rw [h1]; exact Bool.false_ne_true), if_pos h2]
    rfl
  · rw [TAFDecoder.visQuality]
    split_ifs with h1 h2 h3
    · exact ⟨iff_of_true rfl h1, iff_of_false (by decide) (by omega),
        iff_of_false (by decide) (by omega), iff_of_false (by decide) (by omega)⟩
    · exact ⟨iff_of_false (by decide) (by omega), iff_of_true rfl (by omega),
        iff_of_false (by decide) (by omega), iff_of_false (by decide) (by omega)⟩
    · exact ⟨iff_of_false (by decide) (by omega), iff_of_false (by decide) (by omega),
        iff_of_true rfl (by omega), iff_of_false (by decide) (by omega)⟩
    · exact ⟨iff_of_false (by decide) (by omega), iff_of_false (by decide) (by omega),
        iff_of_false (by decide) (by omega), iff_of_true rfl (by omega)⟩

/-- Witness for C6: CAVOK, 9999 and the bare token 4000. -/
theorem c6_witness :
    (TAFDecoder.parse_visibility "CAVOK".data).map (fun v => (v.meters, v.text))
      = some (10000, "👁️ видимость более 10 км, без облачности ниже 1500м, без грозовых явлений (CAVOK)") ∧
    (TAFDecoder.parse_visibility "9999".data).map (fun v => (v.meters, v.text))
      = some (10000, "👁️ видимость 10 км и более") ∧
    (TAFDecoder.parse_visibility (vis4Input 4000)).map (fun v => (v.meters, v.quality))
      = some (4000, some (TAFDecoder.visQuality 4000)) :=
  ⟨c6_visibility_normalization.1 _ (by decide),
   c6_visibility_normalization.2.1 _ (by decide) (by decide),
   c6_visibility_normalization.2.2.2.1 4000 (by decide)⟩

end Spec2Proof
